import Mathlib

/-!
Verification of the macro-calculation service of the fitness-companion
backend (`backend/app/services/macros.py`) against its specification.

Python floats are modelled as exact rationals (ℚ).  Python's `round`
(round half to even, returning an integer) is modelled by `pyRound`,
and `round(x, 1)` (one decimal digit) by `pyRound1`.
-/

namespace Macros

/-- Python `round(x)`: round half to even, returning an integer. -/
def pyRound (x : ℚ) : ℤ :=
  if x - ⌊x⌋ < 1/2 then ⌊x⌋
  else if 1/2 < x - ⌊x⌋ then ⌊x⌋ + 1
  else if ⌊x⌋ % 2 = 0 then ⌊x⌋ else ⌊x⌋ + 1

/-- Python `round(x, 1)`: round to one decimal digit, half to even. -/
def pyRound1 (x : ℚ) : ℚ := (pyRound (x * 10) : ℚ) / 10

/-! Constants, as in `macros.py`. -/

def ACTIVITY_SEDENTARY : ℚ := 1.2
def ACTIVITY_LIGHT : ℚ := 1.375
def ACTIVITY_MODERATE : ℚ := 1.55
def ACTIVITY_ACTIVE : ℚ := 1.725
def ACTIVITY_VERY_ACTIVE : ℚ := 1.9

def GOAL_LOSE_WEIGHT : ℚ := -0.20
def GOAL_BUILD_MUSCLE : ℚ := 0.10
def GOAL_MAINTAIN : ℚ := 0.0
def GOAL_IMPROVE_ENDURANCE : ℚ := 0.05
def GOAL_GENERAL_FITNESS : ℚ := 0.0

def PROTEIN_MIN : ℚ := 0.8
def PROTEIN_MAINTENANCE : ℚ := 0.8
def PROTEIN_LOSE_WEIGHT : ℚ := 1.0
def PROTEIN_BUILD_MUSCLE : ℚ := 1.2
def PROTEIN_ENDURANCE : ℚ := 0.9
def PROTEIN_GENERAL : ℚ := 0.8

def FAT_PERCENT_MIN : ℚ := 0.20
def FAT_PERCENT_MAX : ℚ := 0.30
def FAT_MIN_PER_LB : ℚ := 0.3

def CALORIES_PER_GRAM_PROTEIN : ℚ := 4
def CALORIES_PER_GRAM_CARB : ℚ := 4
def CALORIES_PER_GRAM_FAT : ℚ := 9

/-- `calculate_bmr_mifflin_st_jeor` from `macros.py`. -/
def calculate_bmr_mifflin_st_jeor (weight_lbs : ℚ) (height_inches age : ℤ)
    (is_male : Bool) : ℚ :=
  let weight_kg := weight_lbs * 0.453592
  let height_cm := (height_inches : ℚ) * 2.54
  if is_male then
    (10 * weight_kg) + (6.25 * height_cm) - (5 * (age : ℚ)) + 5
  else
    (10 * weight_kg) + (6.25 * height_cm) - (5 * (age : ℚ)) - 161

/-- `get_activity_multiplier` from `macros.py`. -/
def get_activity_multiplier (training_days_per_week : ℤ) : ℚ :=
  if training_days_per_week = 0 then ACTIVITY_SEDENTARY
  else if training_days_per_week ≤ 2 then ACTIVITY_LIGHT
  else if training_days_per_week ≤ 4 then ACTIVITY_MODERATE
  else if training_days_per_week ≤ 6 then ACTIVITY_ACTIVE
  else ACTIVITY_VERY_ACTIVE

/-- `get_goal_adjustment` from `macros.py` (dict lookup with default
`GOAL_MAINTAIN`). -/
def get_goal_adjustment (goal : String) : ℚ :=
  if goal = "lose_weight" then GOAL_LOSE_WEIGHT
  else if goal = "build_muscle" then GOAL_BUILD_MUSCLE
  else if goal = "maintain" then GOAL_MAINTAIN
  else if goal = "improve_endurance" then GOAL_IMPROVE_ENDURANCE
  else if goal = "general_fitness" then GOAL_GENERAL_FITNESS
  else GOAL_MAINTAIN

/-- `get_protein_per_lb` from `macros.py` (dict lookup with default
`PROTEIN_MIN`). -/
def get_protein_per_lb (goal : String) : ℚ :=
  if goal = "lose_weight" then PROTEIN_LOSE_WEIGHT
  else if goal = "build_muscle" then PROTEIN_BUILD_MUSCLE
  else if goal = "maintain" then PROTEIN_MAINTENANCE
  else if goal = "improve_endurance" then PROTEIN_ENDURANCE
  else if goal = "general_fitness" then PROTEIN_GENERAL
  else PROTEIN_MIN

/-- Step 2 of `calculate_macros`: `maintenance_calories = bmr * activity_mult`. -/
def maintenance_calories (weight_lbs : ℚ) (height_inches age : ℤ)
    (is_male : Bool) (training_days_per_week : ℤ) : ℚ :=
  calculate_bmr_mifflin_st_jeor weight_lbs height_inches age is_male *
    get_activity_multiplier training_days_per_week

/-- Step 3 of `calculate_macros`:
`target_calories = maintenance_calories * (1 + goal_adj)`. -/
def target_calories (weight_lbs : ℚ) (height_inches age : ℤ)
    (is_male : Bool) (goal : String) (training_days_per_week : ℤ) : ℚ :=
  maintenance_calories weight_lbs height_inches age is_male
      training_days_per_week *
    (1 + get_goal_adjustment goal)

/-- Step 5 of `calculate_macros`: the fat-calorie target, reconciling the
0.3 g/lb absolute floor, the 20% floor and the 30% ceiling exactly in
the source's order (max of the floors first, min with the ceiling last). -/
def fat_target_calories (weight_lbs target : ℚ) : ℚ :=
  let fat_min_g := weight_lbs * FAT_MIN_PER_LB
  let fat_min_calories := fat_min_g * CALORIES_PER_GRAM_FAT
  let fat_max_calories := target * FAT_PERCENT_MAX
  let fat_min_calories_from_percent := target * FAT_PERCENT_MIN
  let t := max fat_min_calories fat_min_calories_from_percent
  min t fat_max_calories

/-- Result dictionary of `calculate_macros`. -/
structure MacroResult where
  calories : ℤ
  protein_g : ℚ
  carbs_g : ℚ
  fat_g : ℚ
  deriving DecidableEq

/-- `calculate_macros` from `macros.py`. -/
def calculate_macros (weight_lbs : ℚ) (height_inches age : ℤ)
    (is_male : Bool) (goal : String) (training_days_per_week : ℤ) :
    MacroResult :=
  let target := target_calories weight_lbs height_inches age is_male goal
    training_days_per_week
  let protein_per_lb := get_protein_per_lb goal
  let protein_g := weight_lbs * protein_per_lb
  let protein_calories := protein_g * CALORIES_PER_GRAM_PROTEIN
  let fat_target := fat_target_calories weight_lbs target
  let fat_g := fat_target / CALORIES_PER_GRAM_FAT
  let fat_calories := fat_g * CALORIES_PER_GRAM_FAT
  let remaining_calories := target - protein_calories - fat_calories
  let carbs_g := remaining_calories / CALORIES_PER_GRAM_CARB
  let cf : ℚ × ℚ :=
    if carbs_g < 0 then
      (0, (target - protein_calories) / CALORIES_PER_GRAM_FAT)
    else (carbs_g, fat_g)
  { calories := pyRound target
    protein_g := pyRound1 protein_g
    carbs_g := pyRound1 cf.1
    fat_g := pyRound1 cf.2 }

/-! Rounding lemmas. -/

/-- Banker's rounding moves a rational by at most 1/2. -/
lemma pyRound_sub_le (x : ℚ) : |(pyRound x : ℚ) - x| ≤ 1/2 := by
  have h0 : (⌊x⌋ : ℚ) ≤ x := Int.floor_le x
  have h1 : x < ⌊x⌋ + 1 := Int.lt_floor_add_one x
  unfold pyRound
  split_ifs with hr hr' hpar <;> rw [abs_le] <;> push_cast <;>
    constructor <;> linarith

/-- Rounding to one decimal moves a rational by at most 1/20. -/
lemma pyRound1_sub_le (x : ℚ) : |pyRound1 x - x| ≤ 1/20 := by
  have h := pyRound_sub_le (x * 10)
  rw [abs_le] at h ⊢
  unfold pyRound1
  constructor <;> [linarith [h.1]; linarith [h.2]]

/-- Banker's rounding is at least the floor. -/
lemma floor_le_pyRound (x : ℚ) : ⌊x⌋ ≤ pyRound x := by
  unfold pyRound
  split_ifs <;> omega

/-- Banker's rounding of a non-negative rational is non-negative. -/
lemma pyRound_nonneg {x : ℚ} (hx : 0 ≤ x) : 0 ≤ pyRound x := by
  have h := floor_le_pyRound x
  have h0 : 0 ≤ ⌊x⌋ := Int.floor_nonneg.mpr hx
  omega

/-- One-decimal rounding of a non-negative rational is non-negative. -/
lemma pyRound1_nonneg {x : ℚ} (hx : 0 ≤ x) : 0 ≤ pyRound1 x := by
  unfold pyRound1
  have h : (0 : ℤ) ≤ pyRound (x * 10) := pyRound_nonneg (by linarith)
  have h' : (0 : ℚ) ≤ (pyRound (x * 10) : ℚ) := by exact_mod_cast h
  linarith

/-- When the fractional part is below 1/2, banker's rounding is the floor. -/
lemma pyRound_eq_floor {x : ℚ} (h : x - ⌊x⌋ < 1/2) : pyRound x = ⌊x⌋ := by
  unfold pyRound
  rw [if_pos h]

/-- Rounding zero to one decimal gives zero. -/
lemma pyRound1_zero : pyRound1 0 = 0 := by
  norm_num [pyRound1, pyRound, Int.floor_zero]

/-- Every goal string maps to a positive protein coefficient. -/
lemma get_protein_per_lb_pos (goal : String) : 0 < get_protein_per_lb goal := by
  unfold get_protein_per_lb
  split_ifs <;> norm_num [PROTEIN_LOSE_WEIGHT, PROTEIN_BUILD_MUSCLE,
    PROTEIN_MAINTENANCE, PROTEIN_ENDURANCE, PROTEIN_GENERAL, PROTEIN_MIN]

/-- Goal lookup at the known key `"maintain"`. -/
lemma get_goal_adjustment_maintain : get_goal_adjustment "maintain" = 0 := by
  unfold get_goal_adjustment
  rw [if_neg (by decide), if_neg (by decide), if_pos rfl]
  norm_num [GOAL_MAINTAIN]

/-- Protein lookup at the known key `"maintain"`. -/
lemma get_protein_per_lb_maintain : get_protein_per_lb "maintain" = 0.8 := by
  unfold get_protein_per_lb
  rw [if_neg (by decide), if_neg (by decide), if_pos rfl]
  norm_num [PROTEIN_MAINTENANCE]

/-- Goal lookup at the known key `"lose_weight"`. -/
lemma get_goal_adjustment_lose_weight :
    get_goal_adjustment "lose_weight" = -0.20 := by
  unfold get_goal_adjustment
  rw [if_pos rfl]
  norm_num [GOAL_LOSE_WEIGHT]

/-- Step-3 target on a reference input: 180 lb, 70 in, age 30, male,
goal maintain, 3 training days. -/
lemma target_calories_ref :
    target_calories 180 70 30 true "maintain" 3 = 138160459/50000 := by
  unfold target_calories maintenance_calories calculate_bmr_mifflin_st_jeor
    get_activity_multiplier
  rw [get_goal_adjustment_maintain]
  norm_num [ACTIVITY_MODERATE]

/-- The fat-calorie target is non-negative whenever the target calories
are. -/
lemma fat_target_calories_nonneg {w T : ℚ} (hT : 0 ≤ T) :
    0 ≤ fat_target_calories w T := by
  unfold fat_target_calories
  refine le_min (le_max_of_le_right ?_) ?_
  · exact mul_nonneg hT (by norm_num [FAT_PERCENT_MIN])
  · exact mul_nonneg hT (by norm_num [FAT_PERCENT_MAX])

/-- Three independently rounded quantities whose exact values balance the
target calories stay within 10 calories of the rounded target. -/
lemma rounded_sum_close (T p c f : ℚ) (hsum : p * 4 + c * 4 + f * 9 = T) :
    |pyRound1 p * 4 + pyRound1 c * 4 + pyRound1 f * 9 - (pyRound T : ℚ)|
      ≤ 10 := by
  have hp := pyRound1_sub_le p
  have hc := pyRound1_sub_le c
  have hf := pyRound1_sub_le f
  have hT := pyRound_sub_le T
  rw [abs_le] at hp hc hf hT ⊢
  constructor <;> linarith [hp.1, hp.2, hc.1, hc.2, hf.1, hf.2, hT.1, hT.2]

/-- Activity multiplier bands as the specification tabulates them
(second definition following the spec's words, for comparison with
`get_activity_multiplier`). -/
def spec_activity_multiplier (days : ℤ) : ℚ :=
  if days = 0 then 1.20
  else if 1 ≤ days ∧ days ≤ 2 then 1.375
  else if 3 ≤ days ∧ days ≤ 4 then 1.55
  else if 5 ≤ days ∧ days ≤ 6 then 1.725
  else if days = 7 then 1.90
  else 0

/-- Changing the goal string changes `calculate_macros` only through the
two goal lookups. -/
lemma calculate_macros_congr (g₁ g₂ : String)
    (hadj : get_goal_adjustment g₁ = get_goal_adjustment g₂)
    (hper : get_protein_per_lb g₁ = get_protein_per_lb g₂)
    (w : ℚ) (h a : ℤ) (male : Bool) (days : ℤ) :
    calculate_macros w h a male g₁ days
      = calculate_macros w h a male g₂ days := by
  unfold calculate_macros target_calories
  rw [hadj, hper]

/-- C6: `calculate_bmr_mifflin_st_jeor` returns
`10*kg + 6.25*cm - 5*age + 5` for males and
`10*kg + 6.25*cm - 5*age - 161` for females, with
`kg = weight_lbs * 0.453592` and `cm = height_inches * 2.54`, on every
input and with no error case. -/
theorem C6_bmr_formula (w : ℚ) (h a : ℤ) :
    calculate_bmr_mifflin_st_jeor w h a true
      = 10 * (w * 0.453592) + 6.25 * ((h : ℚ) * 2.54) - 5 * (a : ℚ) + 5 ∧
    calculate_bmr_mifflin_st_jeor w h a false
      = 10 * (w * 0.453592) + 6.25 * ((h : ℚ) * 2.54) - 5 * (a : ℚ) - 161 :=
  ⟨rfl, rfl⟩

/-- C7: on the documented range 0–7, `get_activity_multiplier` realizes
exactly the banded table of the spec (1.20 / 1.375 / 1.55 / 1.725 / 1.90
with inclusive upper bounds), and `calculate_macros` sets
`maintenance_calories = bmr * multiplier`. -/
theorem C7_activity_bands (days : ℤ) (h0 : 0 ≤ days) (h7 : days ≤ 7) :
    get_activity_multiplier days = spec_activity_multiplier days ∧
    ∀ (w : ℚ) (h a : ℤ) (male : Bool),
      maintenance_calories w h a male days
        = calculate_bmr_mifflin_st_jeor w h a male
            * get_activity_multiplier days := by
  refine ⟨?_, fun w h a male => rfl⟩
  interval_cases days <;>
    norm_num [get_activity_multiplier, spec_activity_multiplier,
      ACTIVITY_SEDENTARY, ACTIVITY_LIGHT, ACTIVITY_MODERATE,
      ACTIVITY_ACTIVE, ACTIVITY_VERY_ACTIVE]

theorem C7_activity_bands_witness :
    get_activity_multiplier 3 = spec_activity_multiplier 3 ∧
    maintenance_calories 180 70 30 true 3
      = calculate_bmr_mifflin_st_jeor 180 70 30 true
          * get_activity_multiplier 3 := by
  have h := C7_activity_bands 3 (by norm_num) (by norm_num)
  exact ⟨h.1, h.2 180 70 30 true⟩

/-- C10: for negative `training_days_per_week`, the sedentary band is
skipped (it requires exact equality with 0) and the light band 1.375 is
returned. -/
theorem C10_negative_days_light (days : ℤ) (hd : days < 0) :
    get_activity_multiplier days = 1.375 := by
  unfold get_activity_multiplier
  rw [if_neg (by omega : ¬ days = 0), if_pos (by omega : days ≤ 2)]
  rfl

theorem C10_negative_days_light_witness :
    get_activity_multiplier (-1) = 1.375 :=
  C10_negative_days_light (-1) (by norm_num)

/-- C9: the returned `protein_g` depends only on `weight_lbs` and `goal`;
`height_inches`, `age`, `is_male` and `training_days_per_week` do not
influence it. -/
theorem C9_protein_noninterference (w : ℚ) (goal : String)
    (h₁ a₁ : ℤ) (m₁ : Bool) (d₁ : ℤ) (h₂ a₂ : ℤ) (m₂ : Bool) (d₂ : ℤ) :
    (calculate_macros w h₁ a₁ m₁ goal d₁).protein_g
      = (calculate_macros w h₂ a₂ m₂ goal d₂).protein_g := rfl

/-- C5: every goal string outside the five known ones gets the maintain
delta 0.0 from `get_goal_adjustment` and the floor constant 0.8 from
`get_protein_per_lb`, and `calculate_macros` on such a goal completes
normally, agreeing with the result for the goal `"maintain"`. -/
theorem C5_unknown_goal_fallback (goal : String)
    (h1 : goal ≠ "lose_weight") (h2 : goal ≠ "build_muscle")
    (h3 : goal ≠ "maintain") (h4 : goal ≠ "improve_endurance")
    (h5 : goal ≠ "general_fitness") :
    get_goal_adjustment goal = 0 ∧ get_protein_per_lb goal = 0.8 ∧
    ∀ (w : ℚ) (h a : ℤ) (male : Bool) (days : ℤ),
      calculate_macros w h a male goal days
        = calculate_macros w h a male "maintain" days := by
  have e1 : get_goal_adjustment goal = 0 := by
    unfold get_goal_adjustment
    rw [if_neg h1, if_neg h2, if_neg h3, if_neg h4, if_neg h5]
    norm_num [GOAL_MAINTAIN]
  have e2 : get_protein_per_lb goal = 0.8 := by
    unfold get_protein_per_lb
    rw [if_neg h1, if_neg h2, if_neg h3, if_neg h4, if_neg h5]
    norm_num [PROTEIN_MIN]
  have e1m : get_goal_adjustment "maintain" = 0 := by
    unfold get_goal_adjustment
    rw [if_neg (by decide), if_neg (by decide), if_pos rfl]
    norm_num [GOAL_MAINTAIN]
  have e2m : get_protein_per_lb "maintain" = 0.8 := by
    unfold get_protein_per_lb
    rw [if_neg (by decide), if_neg (by decide), if_pos rfl]
    norm_num [PROTEIN_MAINTENANCE]
  refine ⟨e1, e2, fun w h a male days => ?_⟩
  exact calculate_macros_congr goal "maintain"
    (by rw [e1, e1m]) (by rw [e2, e2m]) w h a male days

theorem C5_unknown_goal_fallback_witness :
    get_goal_adjustment "keto" = 0 ∧ get_protein_per_lb "keto" = 0.8 ∧
    calculate_macros 180 70 30 true "keto" 3
      = calculate_macros 180 70 30 true "maintain" 3 := by
  have h := C5_unknown_goal_fallback "keto" (by decide) (by decide)
    (by decide) (by decide) (by decide)
  exact ⟨h.1, h.2.1, h.2.2 180 70 30 true 3⟩

/-- C3: the pre-rounding fat-calorie target of step 5 is
`min (max (w*0.3*9) (T*0.20)) (T*0.30)` — the two floors are reconciled
by `max` first, the 30% ceiling is applied by `min` last and
unconditionally, so whenever the ceiling conflicts with the 0.3 g/lb
absolute floor the ceiling wins. -/
theorem C3_fat_target_policy (w T : ℚ) :
    fat_target_calories w T
      = min (max (w * 0.3 * 9) (T * 0.20)) (T * 0.30) ∧
    (T * 0.30 < w * 0.3 * 9 → fat_target_calories w T = T * 0.30) := by
  have heq : fat_target_calories w T
      = min (max (w * 0.3 * 9) (T * 0.20)) (T * 0.30) := rfl
  refine ⟨heq, fun hlt => ?_⟩
  rw [heq]
  exact min_eq_right (le_trans (le_of_lt hlt) (le_max_left _ _))

theorem C3_fat_target_policy_witness :
    fat_target_calories 200 1000 = 1000 * 0.30 :=
  (C3_fat_target_policy 200 1000).2 (by norm_num)

/-- C8: with all other inputs fixed, a larger `weight_lbs` gives a BMR,
a pre-rounding protein allocation `weight_lbs * protein_per_lb`, and an
absolute fat floor `weight_lbs * 0.3` that are at least as large. -/
theorem C8_weight_monotone (w₁ w₂ : ℚ) (h a : ℤ) (male : Bool)
    (goal : String) (hw : w₁ ≤ w₂) :
    calculate_bmr_mifflin_st_jeor w₁ h a male
      ≤ calculate_bmr_mifflin_st_jeor w₂ h a male ∧
    w₁ * get_protein_per_lb goal ≤ w₂ * get_protein_per_lb goal ∧
    w₁ * FAT_MIN_PER_LB ≤ w₂ * FAT_MIN_PER_LB := by
  refine ⟨?_, ?_, ?_⟩
  · simp only [calculate_bmr_mifflin_st_jeor]
    split_ifs <;> linarith
  · exact mul_le_mul_of_nonneg_right hw (get_protein_per_lb_pos goal).le
  · exact mul_le_mul_of_nonneg_right hw (by norm_num [FAT_MIN_PER_LB])

theorem C8_weight_monotone_witness :
    calculate_bmr_mifflin_st_jeor 150 70 30 true
      ≤ calculate_bmr_mifflin_st_jeor 200 70 30 true ∧
    150 * get_protein_per_lb "maintain" ≤ 200 * get_protein_per_lb "maintain" ∧
    150 * FAT_MIN_PER_LB ≤ 200 * FAT_MIN_PER_LB :=
  C8_weight_monotone 150 200 70 30 true "maintain" (by norm_num)

/-- C1: for every valid input (positive weight, height and age, training
days between 0 and 7), the rounded macros of `calculate_macros` satisfy
`protein_g*4 + carbs_g*4 + fat_g*9` within ±10 of `calories`. -/
theorem C1_energy_balance (w : ℚ) (h a : ℤ) (male : Bool) (goal : String)
    (days : ℤ) (hw : 0 < w) (hh : 0 < h) (ha : 0 < a)
    (hd0 : 0 ≤ days) (hd7 : days ≤ 7) :
    |(calculate_macros w h a male goal days).protein_g * 4
      + (calculate_macros w h a male goal days).carbs_g * 4
      + (calculate_macros w h a male goal days).fat_g * 9
      - ((calculate_macros w h a male goal days).calories : ℚ)| ≤ 10 := by
  simp only [calculate_macros, CALORIES_PER_GRAM_PROTEIN,
    CALORIES_PER_GRAM_CARB, CALORIES_PER_GRAM_FAT]
  split_ifs with hc <;> dsimp only <;> exact rounded_sum_close _ _ _ _ (by ring)

theorem C1_energy_balance_witness :
    |(calculate_macros 180 70 30 true "maintain" 3).protein_g * 4
      + (calculate_macros 180 70 30 true "maintain" 3).carbs_g * 4
      + (calculate_macros 180 70 30 true "maintain" 3).fat_g * 9
      - ((calculate_macros 180 70 30 true "maintain" 3).calories : ℚ)|
      ≤ 10 :=
  C1_energy_balance 180 70 30 true "maintain" 3 (by norm_num) (by norm_num)
    (by norm_num) (by norm_num) (by norm_num)

/-- C2 counterexample: at weight 300 lb, height 1 in, age 300, male,
goal lose_weight, 0 training days — an input, though far outside the
caller-validated range — the BMR and hence the target calories are
negative, and the output has `calories = -114 < 0` (and a negative
`fat_g` as well), so the claim `for every input, fat_g ≥ 0 ∧ carbs_g ≥ 0
∧ protein_g ≥ 0 ∧ calories > 0` is false. -/
theorem C2_counterexample :
    ¬ (0 ≤ (calculate_macros 300 1 300 true "lose_weight" 0).fat_g ∧
       0 ≤ (calculate_macros 300 1 300 true "lose_weight" 0).carbs_g ∧
       0 ≤ (calculate_macros 300 1 300 true "lose_weight" 0).protein_g ∧
       0 < (calculate_macros 300 1 300 true "lose_weight" 0).calories) := by
  intro hcon
  have hT : target_calories 300 1 300 true "lose_weight" 0
      = -355047/3125 := by
    unfold target_calories maintenance_calories calculate_bmr_mifflin_st_jeor
      get_activity_multiplier
    rw [get_goal_adjustment_lose_weight]
    norm_num [ACTIVITY_SEDENTARY]
  have hcal : (calculate_macros 300 1 300 true "lose_weight" 0).calories
      = pyRound (target_calories 300 1 300 true "lose_weight" 0) := rfl
  have hfl : ⌊(-355047/3125 : ℚ)⌋ = -114 := by
    rw [Int.floor_eq_iff]
    constructor <;> norm_num
  have hfr : (-355047/3125 : ℚ) - ⌊(-355047/3125 : ℚ)⌋ < 1/2 := by
    rw [hfl]
    norm_num
  have hneg : (calculate_macros 300 1 300 true "lose_weight" 0).calories
      = -114 := by
    rw [hcal, hT, pyRound_eq_floor hfr, hfl]
  have := hcon.2.2.2
  rw [hneg] at this
  exact absurd this (by norm_num)

/-- C2 amended: the guarantees hold once the target calories are at
least 1 and at least the protein calories, with non-negative weight:
then `fat_g ≥ 0`, `carbs_g ≥ 0`, `protein_g ≥ 0` and `calories > 0`.
(Without such a restriction the claim fails: a negative BMR propagates
into negative calories and fat.) -/
theorem C2_amended (w : ℚ) (h a : ℤ) (male : Bool) (goal : String)
    (days : ℤ) (hw : 0 ≤ w)
    (hT1 : 1 ≤ target_calories w h a male goal days)
    (hTP : w * get_protein_per_lb goal * CALORIES_PER_GRAM_PROTEIN
      ≤ target_calories w h a male goal days) :
    0 ≤ (calculate_macros w h a male goal days).fat_g ∧
    0 ≤ (calculate_macros w h a male goal days).carbs_g ∧
    0 ≤ (calculate_macros w h a male goal days).protein_g ∧
    0 < (calculate_macros w h a male goal days).calories := by
  have hT0 : (0 : ℚ) ≤ target_calories w h a male goal days := by linarith
  refine ⟨?_, ?_, ?_, ?_⟩
  · simp only [calculate_macros]
    split_ifs with hc <;> dsimp only
    · exact pyRound1_nonneg
        (div_nonneg (sub_nonneg.mpr hTP) (by norm_num [CALORIES_PER_GRAM_FAT]))
    · exact pyRound1_nonneg
        (div_nonneg (fat_target_calories_nonneg hT0)
          (by norm_num [CALORIES_PER_GRAM_FAT]))
  · simp only [calculate_macros]
    split_ifs with hc <;> dsimp only
    · exact pyRound1_nonneg le_rfl
    · exact pyRound1_nonneg (le_of_not_lt hc)
  · exact pyRound1_nonneg (mul_nonneg hw (get_protein_per_lb_pos goal).le)
  · have h1 : 1 ≤ ⌊target_calories w h a male goal days⌋ :=
      Int.le_floor.mpr (by push_cast; exact hT1)
    have h2 := floor_le_pyRound (target_calories w h a male goal days)
    have : (calculate_macros w h a male goal days).calories
        = pyRound (target_calories w h a male goal days) := rfl
    rw [this]
    omega

theorem C2_amended_witness :
    0 ≤ (calculate_macros 180 70 30 true "maintain" 3).fat_g ∧
    0 ≤ (calculate_macros 180 70 30 true "maintain" 3).carbs_g ∧
    0 ≤ (calculate_macros 180 70 30 true "maintain" 3).protein_g ∧
    0 < (calculate_macros 180 70 30 true "maintain" 3).calories :=
  C2_amended 180 70 30 true "maintain" 3 (by norm_num)
    (by rw [target_calories_ref]; norm_num)
    (by
      rw [get_protein_per_lb_maintain, target_calories_ref]
      norm_num [CALORIES_PER_GRAM_PROTEIN])

/-- C4: when the carbohydrate fill
`(target - protein_cal - fat_cal)/4` is negative, `calculate_macros`
returns `carbs_g = 0` and recomputes fat from the residual
`(target - protein_cal)/9`, discarding the step-5 fat bounds; when the
fill is non-negative, the step-5 fat value is kept and the carbs are the
rounded fill. -/
theorem C4_carb_clamp (w : ℚ) (h a : ℤ) (male : Bool) (goal : String)
    (days : ℤ) :
    ((target_calories w h a male goal days
        - w * get_protein_per_lb goal * CALORIES_PER_GRAM_PROTEIN
        - fat_target_calories w (target_calories w h a male goal days)
            / CALORIES_PER_GRAM_FAT * CALORIES_PER_GRAM_FAT)
          / CALORIES_PER_GRAM_CARB < 0 →
      (calculate_macros w h a male goal days).carbs_g = 0 ∧
      (calculate_macros w h a male goal days).fat_g
        = pyRound1 ((target_calories w h a male goal days
            - w * get_protein_per_lb goal * CALORIES_PER_GRAM_PROTEIN)
              / CALORIES_PER_GRAM_FAT)) ∧
    (0 ≤ (target_calories w h a male goal days
        - w * get_protein_per_lb goal * CALORIES_PER_GRAM_PROTEIN
        - fat_target_calories w (target_calories w h a male goal days)
            / CALORIES_PER_GRAM_FAT * CALORIES_PER_GRAM_FAT)
          / CALORIES_PER_GRAM_CARB →
      (calculate_macros w h a male goal days).fat_g
        = pyRound1 (fat_target_calories w
            (target_calories w h a male goal days) / CALORIES_PER_GRAM_FAT) ∧
      (calculate_macros w h a male goal days).carbs_g
        = pyRound1 ((target_calories w h a male goal days
            - w * get_protein_per_lb goal * CALORIES_PER_GRAM_PROTEIN
            - fat_target_calories w (target_calories w h a male goal days)
                / CALORIES_PER_GRAM_FAT * CALORIES_PER_GRAM_FAT)
              / CALORIES_PER_GRAM_CARB)) := by
  constructor <;> intro hc
  · simp only [calculate_macros]
    rw [if_pos hc]
    exact ⟨pyRound1_zero, rfl⟩
  · simp only [calculate_macros]
    rw [if_neg (not_lt.mpr hc)]
    exact ⟨rfl, rfl⟩

theorem C4_carb_clamp_witness :
    (calculate_macros 180 70 30 true "maintain" 3).fat_g
      = pyRound1 (fat_target_calories 180
          (target_calories 180 70 30 true "maintain" 3)
            / CALORIES_PER_GRAM_FAT) ∧
    (calculate_macros 180 70 30 true "maintain" 3).carbs_g
      = pyRound1 ((target_calories 180 70 30 true "maintain" 3
          - 180 * get_protein_per_lb "maintain" * CALORIES_PER_GRAM_PROTEIN
          - fat_target_calories 180
              (target_calories 180 70 30 true "maintain" 3)
                / CALORIES_PER_GRAM_FAT * CALORIES_PER_GRAM_FAT)
            / CALORIES_PER_GRAM_CARB) :=
  (C4_carb_clamp 180 70 30 true "maintain" 3).2 (by
    rw [target_calories_ref, get_protein_per_lb_maintain]
    norm_num [fat_target_calories, FAT_MIN_PER_LB, FAT_PERCENT_MIN,
      FAT_PERCENT_MAX, CALORIES_PER_GRAM_FAT, CALORIES_PER_GRAM_PROTEIN,
      CALORIES_PER_GRAM_CARB, min_def, max_def])

end Macros
